import Mathlib

/-!
Shallow embedding of the ContextOS client integration layer:
the settings resolver (`src/ui/lib/settings.ts`) and the API client
helper functions (the unnamed API helper module).

The embedding models the browser client context: `window` is defined and
`localStorage` is readable and writable (the server-side rendering branches
of the source, which short-circuit to the default URL, are outside the scope
of the claims, all of which concern client operation).  The mutable module
state (`settingsCache`, the `contextos_server_url` localStorage key) becomes
an explicit `ClientState` that every operation threads.  Each `fetch` call
becomes a `FetchOutcome` argument describing what the backend did: a parsed
success body, a non-success HTTP status (with whatever error information the
function reads from it), or a thrown error (network failure or a body that
failed to parse as JSON).  Functions that build HTTP requests are paired with
`...Request` definitions recording the URL, method, headers and body the
source passes to `fetch`.
-/

namespace ContextOS

/-- Whitespace predicate used by the model of JavaScript string trimming
(space, tab, carriage return, line feed). -/
def wsChar (c : Char) : Bool := c.isWhitespace

/-- Remove the longest whitespace run at each end of a character list. -/
def trimChars (l : List Char) : List Char :=
  List.rdropWhile wsChar (List.dropWhile wsChar l)

/-- Models JavaScript `String.prototype.trim()`: strip leading and trailing
whitespace. -/
def jsTrim (s : String) : String := ⟨trimChars s.data⟩

/-- Models the JavaScript expression `a || b` where `a` is a possibly-absent
string field: an absent value and the empty string are falsy and select `b`. -/
def jsOrStr : Option String → String → String
  | none, b => b
  | some a, b => if a = "" then b else a

/-- The `Settings` interface of `settings.ts`. -/
structure Settings where
  togetherApiKey : String
  groqApiKey : String
  serverUrl : String
deriving Repr, DecidableEq

/-- `DEFAULT_SERVER_URL`.  The source reads `process.env.NEXT_PUBLIC_API_URL`
first; the model takes the environment variable to be unset, so the literal
fallback is the default. -/
def DEFAULT_SERVER_URL : String := "http://localhost:8000"

/-- The module-level mutable state of the settings layer: the
`contextos_server_url` localStorage entry (`none` when the key is absent) and
the in-memory `settingsCache` (`none` when never loaded or cleared). -/
structure ClientState where
  storedUrl : Option String
  cache : Option Settings
deriving Repr, DecidableEq

/-- `getStoredServerUrl()`: return the trimmed stored value when it exists and
is non-blank, otherwise the default. -/
def getStoredServerUrl (s : ClientState) : String :=
  match s.storedUrl with
  | some stored => if jsTrim stored = "" then DEFAULT_SERVER_URL else jsTrim stored
  | none => DEFAULT_SERVER_URL

/-- The spec calls `getStoredServerUrl` "resolveServerUrl". -/
def resolveServerUrl (s : ClientState) : String := getStoredServerUrl s

/-- `storeServerUrl(url)`: write the trimmed URL to localStorage. -/
def storeServerUrl (url : String) (s : ClientState) : ClientState :=
  { s with storedUrl := some (jsTrim url) }

/-- Outcome of one `fetch` call as observed by the caller: a successful
response with parsed JSON body `β`, a non-success HTTP status carrying the
error information `γ` the function extracts from the response, or a thrown
error (network failure, or a response body that failed to parse). -/
inductive FetchOutcome (β : Type) (γ : Type) where
  | success (body : β)
  | badStatus (errInfo : γ)
  | thrown
deriving Repr

/-- JSON object field value, as used in the request bodies this layer sends. -/
inductive JVal where
  | str (s : String)
  | bool (b : Bool)
deriving Repr, DecidableEq

/-- One HTTP request as passed to `fetch`: URL, method, header list, and the
(JSON object) body when present. -/
structure Request where
  url : String
  method : String
  headers : List (String × String)
  body : Option (List (String × JVal))
deriving Repr, DecidableEq

/-- The JSON body `loadSettings` reads from `GET {url}/api/settings`.  All
fields are optional; a `serverUrl` member may appear but the source never
reads it. -/
structure BackendSettingsBody where
  togetherApiKey : Option String
  groqApiKey : Option String
  serverUrl : Option String
deriving Repr, DecidableEq

/-- The request `loadSettings` issues: a GET with only `cache: no-cache` in
the init object — no custom headers. -/
def loadSettingsRequest (s : ClientState) : Request :=
  { url := getStoredServerUrl s ++ "/api/settings"
    method := "GET"
    headers := []
    body := none }

/-- `loadSettings()`: on success merge the backend body's two key fields with
the locally resolved URL and store the merge in the cache; on any error
(non-success status throws into the catch, as does a parse failure or network
error) return a fallback Settings with empty keys and the resolved URL,
leaving the cache untouched.  Returns the new state and the returned value. -/
def loadSettings (s : ClientState) (resp : FetchOutcome BackendSettingsBody String) :
    ClientState × Settings :=
  match resp with
  | .success body =>
      let merged : Settings :=
        { togetherApiKey := jsOrStr body.togetherApiKey ""
          groqApiKey := jsOrStr body.groqApiKey ""
          serverUrl := getStoredServerUrl s }
      ({ s with cache := some merged }, merged)
  | _ =>
      (s, { togetherApiKey := "", groqApiKey := "", serverUrl := getStoredServerUrl s })

/-- `Partial<Settings>`: each field present or absent. -/
structure SettingsUpdate where
  togetherApiKey : Option String
  groqApiKey : Option String
  serverUrl : Option String
deriving Repr, DecidableEq

/-- The `targetUrl` computed at the top of `saveSettings`: the trimmed new
URL (default when blank) when `updates.serverUrl` is present, otherwise the
currently stored URL. -/
def saveTargetUrl (s : ClientState) (updates : SettingsUpdate) : String :=
  match updates.serverUrl with
  | some u => if jsTrim u = "" then DEFAULT_SERVER_URL else jsTrim u
  | none => getStoredServerUrl s

/-- The `backendUpdates` object `saveSettings` builds: only the API-key
fields that are present in `updates`, never `serverUrl`. -/
def backendUpdates (updates : SettingsUpdate) : List (String × JVal) :=
  (match updates.togetherApiKey with
   | some v => [("togetherApiKey", JVal.str v)]
   | none => []) ++
  (match updates.groqApiKey with
   | some v => [("groqApiKey", JVal.str v)]
   | none => [])

/-- The request `saveSettings` issues: POST to the target URL with only a
`Content-Type` header and the `backendUpdates` JSON body. -/
def saveSettingsRequest (s : ClientState) (updates : SettingsUpdate) : Request :=
  { url := saveTargetUrl s updates ++ "/api/settings"
    method := "POST"
    headers := [("Content-Type", "application/json")]
    body := some (backendUpdates updates) }

/-- The JSON body of a successful save response: `result.settings` is an
optional object read with optional chaining. -/
structure SaveResponseBody where
  settings : Option BackendSettingsBody
deriving Repr, DecidableEq

/-- Result of one `saveSettings` call: the state after the call, the request
it sent, and `some` returned Settings on success or `none` when the error was
re-thrown to the caller. -/
structure SaveCall where
  state : ClientState
  request : Request
  result : Option Settings
deriving Repr

/-- `saveSettings(updates)`: store the new URL (when given) before the fetch,
POST only the key fields, and on success merge
`result.settings?.field || backendUpdates.field || settingsCache?.field || ''`
for each key with the target URL into the cache; on failure re-throw
(modelled by `result := none`), leaving the cache as it was. -/
def saveSettings (s : ClientState) (updates : SettingsUpdate)
    (resp : FetchOutcome SaveResponseBody String) : SaveCall :=
  let s1 : ClientState :=
    match updates.serverUrl with
    | some _ => storeServerUrl (saveTargetUrl s updates) s
    | none => s
  let req := saveSettingsRequest s updates
  match resp with
  | .success body =>
      let merged : Settings :=
        { togetherApiKey :=
            jsOrStr (body.settings.bind (fun b => b.togetherApiKey))
              (jsOrStr updates.togetherApiKey
                (jsOrStr (s.cache.map (fun c => c.togetherApiKey)) ""))
          groqApiKey :=
            jsOrStr (body.settings.bind (fun b => b.groqApiKey))
              (jsOrStr updates.groqApiKey
                (jsOrStr (s.cache.map (fun c => c.groqApiKey)) ""))
          serverUrl := saveTargetUrl s updates }
      { state := { s1 with cache := some merged }, request := req, result := some merged }
  | _ => { state := s1, request := req, result := none }

/-- `getBaseUrl()`: the stored server URL. -/
def getBaseUrl (s : ClientState) : String := getStoredServerUrl s

/-- `clearSettingsCache()`. -/
def clearSettingsCache (s : ClientState) : ClientState := { s with cache := none }

/-- `getCachedSettings()`: peek at the cache without I/O. -/
def getCachedSettings (s : ClientState) : Option Settings := s.cache

/-- `resetServerUrl()`: remove the stored key and clear the cache. -/
def resetServerUrl (_s : ClientState) : ClientState :=
  { storedUrl := none, cache := none }

/-! ## API client (the unnamed API helper module) -/

/-- `getBackendUrl()` in the API helper module: in the browser it returns
`getBaseUrl()`, i.e. the stored server URL. -/
def getBackendUrl (s : ClientState) : String := getBaseUrl s

/-- The header list every API client request passes to `fetch`. -/
def apiHeaders : List (String × String) :=
  [("Content-Type", "application/json"), ("ngrok-skip-browser-warning", "69420")]

/-- The `{ ok, error?, ignored? }` shape `captureContext` returns. -/
structure CaptureResult where
  ok : Bool
  error : Option String
  ignored : Option Bool
deriving Repr, DecidableEq

/-- The request `captureContext` issues. -/
def captureContextRequest (s : ClientState) (content : String) : Request :=
  { url := getBackendUrl s ++ "/api/context"
    method := "POST"
    headers := apiHeaders
    body := some [("source", JVal.str "manual"), ("content", JVal.str content)] }

/-- `captureContext(content)`: return the parsed body on success; on a
non-success status parse the error body and return
`{ ok: false, error: error.error || 'Failed to capture context' }` (the
`badStatus` payload is the optional `error` member of that body; a body that
fails to parse throws into the catch); on a thrown error return
`{ ok: false, error: 'Network error' }`. -/
def captureContext (_s : ClientState) (_content : String)
    (resp : FetchOutcome CaptureResult (Option String)) : CaptureResult :=
  match resp with
  | .success body => body
  | .badStatus errField =>
      { ok := false, error := some (jsOrStr errField "Failed to capture context")
        ignored := none }
  | .thrown => { ok := false, error := some "Network error", ignored := none }

/-- The `Task` interface of the API helper module. -/
structure PlanTask where
  taskNumber : Nat
  title : String
  completed : Option Bool
deriving Repr, DecidableEq

/-- The `FocusTask` interface (a `Task` plus a `reason`). -/
structure FocusTask where
  taskNumber : Nat
  title : String
  completed : Option Bool
  reason : String
deriving Repr, DecidableEq

/-- One entry of `scheduleSuggestions`. -/
structure ScheduleSuggestion where
  timeOfDay : String
  suggestion : String
deriving Repr, DecidableEq

/-- The `DailyPlan` interface. -/
structure DailyPlan where
  date : String
  daySummary : String
  focusTasks : List FocusTask
  otherTasks : List PlanTask
  reminders : List String
  scheduleSuggestions : List ScheduleSuggestion
  totalTasks : Nat
deriving Repr, DecidableEq

/-- The `DailyPlanResponse` interface.  The source field is named `exists`,
which is a Lean keyword, hence `existsFlag` here. -/
structure DailyPlanResponse where
  existsFlag : Bool
  plan : Option DailyPlan
deriving Repr, DecidableEq

/-- The request `getDailyPlan` issues. -/
def getDailyPlanRequest (s : ClientState) (dateStr : String) : Request :=
  { url := getBackendUrl s ++ "/api/daily-plan?date=" ++ dateStr
    method := "GET"
    headers := apiHeaders
    body := none }

/-- `getDailyPlan(dateStr)`: the parsed body on success; `null` on a
non-success status (the payload is the logged response text) or thrown
error. -/
def getDailyPlan (_s : ClientState) (_dateStr : String)
    (resp : FetchOutcome DailyPlanResponse String) : Option DailyPlanResponse :=
  match resp with
  | .success body => some body
  | _ => none

/-- The local-time components `getTodayPlan` reads from `new Date()`:
`getFullYear()`, `getMonth()` (0-based) and `getDate()`, all in the local
timezone (the source deliberately avoids the UTC accessors). -/
structure JsDate where
  fullYear : Nat
  month : Nat
  date : Nat
deriving Repr, DecidableEq

/-- Models `String(n).padStart(2, '0')` composed with `String(·)`:
left-pad with zeros to length two. -/
def padStart2 (s : String) : String :=
  if 2 ≤ s.length then s else String.mk (List.replicate (2 - s.length) '0') ++ s

/-- The date string `getTodayPlan` builds:
`${y}-${String(m + 1).padStart(2, '0')}-${String(d).padStart(2, '0')}`. -/
def todayDateStr (now : JsDate) : String :=
  toString now.fullYear ++ "-" ++ padStart2 (toString (now.month + 1)) ++ "-"
    ++ padStart2 (toString now.date)

/-- `getTodayPlan()`: delegate to `getDailyPlan` with today's local date. -/
def getTodayPlan (s : ClientState) (now : JsDate)
    (resp : FetchOutcome DailyPlanResponse String) : Option DailyPlanResponse :=
  getDailyPlan s (todayDateStr now) resp

/-- The request `getTodayPlan` causes `getDailyPlan` to issue. -/
def getTodayPlanRequest (s : ClientState) (now : JsDate) : Request :=
  getDailyPlanRequest s (todayDateStr now)

/-- The `{ ok, plan }` body of the plan-producing endpoints. -/
structure GeneratePlanBody where
  ok : Bool
  plan : Option DailyPlan
deriving Repr, DecidableEq

/-- The request `generateDailyPlan` issues. -/
def generateDailyPlanRequest (s : ClientState) (dateStr : String) : Request :=
  { url := getBackendUrl s ++ "/api/daily-plan/generate?date=" ++ dateStr
    method := "POST"
    headers := apiHeaders
    body := none }

/-- `generateDailyPlan(dateStr)`: `data.ok ? data.plan : null` on success;
`null` on non-success status or thrown error. -/
def generateDailyPlan (_s : ClientState) (_dateStr : String)
    (resp : FetchOutcome GeneratePlanBody String) : Option DailyPlan :=
  match resp with
  | .success body => if body.ok then body.plan else none
  | _ => none

/-- The request `getAvailableDates` issues. -/
def getAvailableDatesRequest (s : ClientState) : Request :=
  { url := getBackendUrl s ++ "/api/daily-plan/available-dates"
    method := "GET"
    headers := apiHeaders
    body := none }

/-- `getAvailableDates()`: the raw parsed JSON on success (an arbitrary
payload type `β`); `null` otherwise. -/
def getAvailableDates {β : Type} (_s : ClientState)
    (resp : FetchOutcome β String) : Option β :=
  match resp with
  | .success body => some body
  | _ => none

/-- The request `generateMissingPlans` issues. -/
def generateMissingPlansRequest (s : ClientState) : Request :=
  { url := getBackendUrl s ++ "/api/daily-plan/generate-missing"
    method := "POST"
    headers := apiHeaders
    body := none }

/-- `generateMissingPlans()`: the raw parsed JSON on success; `null`
otherwise. -/
def generateMissingPlans {β : Type} (_s : ClientState)
    (resp : FetchOutcome β String) : Option β :=
  match resp with
  | .success body => some body
  | _ => none

/-- The request `toggleTaskCompletion` issues. -/
def toggleTaskCompletionRequest (s : ClientState) (taskId : Nat) (completed : Bool)
    (date : String) : Request :=
  { url := getBackendUrl s ++ "/api/tasks/" ++ toString taskId
    method := "PATCH"
    headers := apiHeaders
    body := some [("completed", JVal.bool completed), ("date", JVal.str date)] }

/-- `toggleTaskCompletion(taskId, completed, date)`:
`data.ok ? data.plan : null` on success; `null` otherwise. -/
def toggleTaskCompletion (_s : ClientState) (_taskId : Nat) (_completed : Bool)
    (_date : String) (resp : FetchOutcome GeneratePlanBody String) : Option DailyPlan :=
  match resp with
  | .success body => if body.ok then body.plan else none
  | _ => none

/-- `refreshApiSettings()`: clear the settings cache. -/
def refreshApiSettings (s : ClientState) : ClientState := clearSettingsCache s

/-! ## Spec-side definitions (for refinement comparisons only) -/

/-- `some` of the value when it is present and non-empty, else `none`. -/
def nonEmptyOpt : Option String → Option String
  | some v => if v = "" then none else some v
  | none => none

/-- Written from the spec sentence describing the per-key fallback chain of a
successful save: the backend response's value for the field if present and
non-empty, otherwise the value submitted in this call's update if present and
non-empty, otherwise the previously cached value if a cache existed and the
field was non-empty, otherwise the empty string.  To be compared with the
merge the source performs. -/
def specKeyFallback (respField updField cachedField : Option String) : String :=
  match nonEmptyOpt respField with
  | some r => r
  | none =>
    match nonEmptyOpt updField with
    | some u => u
    | none =>
      match nonEmptyOpt cachedField with
      | some c => c
      | none => ""

/-- Written from the spec sentence "formatted `YYYY-MM-DD`, zero-padded": a
number rendered with a leading zero when it has a single digit.  To be
compared with the `padStart`-based formatting the source performs. -/
def specPad2 (n : Nat) : String := if n < 10 then "0" ++ toString n else toString n

/-! ## Lemmas about the trimming model -/

theorem dropWhile_head_neg {α : Type} (p : α → Bool) :
    ∀ (l : List α) (a : α) (t : List α), List.dropWhile p l = a :: t → p a = false := by
  intro l
  induction l with
  | nil => intro a t h; simp [List.dropWhile] at h
  | cons x xs ih =>
      intro a t h
      rw [List.dropWhile_cons] at h
      by_cases hx : p x
      · rw [if_pos hx] at h; exact ih a t h
      · rw [if_neg hx] at h
        cases h
        simpa using hx

theorem dropWhile_concat_neg {α : Type} (p : α → Bool) (a : α) (ha : p a = false) :
    ∀ ys : List α, ∃ q : List α, List.dropWhile p (ys ++ [a]) = q ++ [a] := by
  intro ys
  induction ys with
  | nil => exact ⟨[], by simp [List.dropWhile_cons, ha]⟩
  | cons y ys ih =>
      obtain ⟨q, hq⟩ := ih
      by_cases hy : p y
      · exact ⟨q, by simpa [List.dropWhile_cons, hy] using hq⟩
      · exact ⟨y :: ys, by simp [List.dropWhile_cons, hy]⟩

theorem dropWhile_trimChars (l : List Char) :
    List.dropWhile wsChar (trimChars l) = trimChars l := by
  unfold trimChars
  cases h : List.dropWhile wsChar l with
  | nil => simp [List.rdropWhile]
  | cons a t =>
      have ha : wsChar a = false := dropWhile_head_neg wsChar l a t h
      obtain ⟨q, hq⟩ := dropWhile_concat_neg wsChar a ha t.reverse
      rw [List.rdropWhile, List.reverse_cons, hq, List.reverse_append]
      simp [List.dropWhile_cons, ha]

theorem trimChars_idem (l : List Char) : trimChars (trimChars l) = trimChars l := by
  conv_lhs => rw [trimChars, dropWhile_trimChars]
  rw [trimChars, List.rdropWhile_idempotent]

theorem jsTrim_idem (s : String) : jsTrim (jsTrim s) = jsTrim s := by
  simp [jsTrim, trimChars_idem]

theorem jsTrim_default : jsTrim DEFAULT_SERVER_URL = DEFAULT_SERVER_URL := by decide

theorem default_ne_empty : DEFAULT_SERVER_URL ≠ "" := by decide

theorem jsTrim_getStoredServerUrl (s : ClientState) :
    jsTrim (getStoredServerUrl s) = getStoredServerUrl s := by
  cases hs : s.storedUrl with
  | none => simp [getStoredServerUrl, hs, jsTrim_default]
  | some st =>
      by_cases h : jsTrim st = ""
      · simp [getStoredServerUrl, hs, h, jsTrim_default]
      · simp [getStoredServerUrl, hs, h, jsTrim_idem]

theorem getStoredServerUrl_ne_empty (s : ClientState) : getStoredServerUrl s ≠ "" := by
  cases hs : s.storedUrl with
  | none => simp [getStoredServerUrl, hs, default_ne_empty]
  | some st =>
      by_cases h : jsTrim st = ""
      · simp [getStoredServerUrl, hs, h, default_ne_empty]
      · simp [getStoredServerUrl, hs, h]

theorem jsTrim_saveTargetUrl (s : ClientState) (updates : SettingsUpdate) :
    jsTrim (saveTargetUrl s updates) = saveTargetUrl s updates := by
  cases hu : updates.serverUrl with
  | none => simp [saveTargetUrl, hu, jsTrim_getStoredServerUrl]
  | some u =>
      by_cases h : jsTrim u = ""
      · simp [saveTargetUrl, hu, h, jsTrim_default]
      · simp [saveTargetUrl, hu, h, jsTrim_idem]

theorem saveTargetUrl_ne_empty (s : ClientState) (updates : SettingsUpdate) :
    saveTargetUrl s updates ≠ "" := by
  cases hu : updates.serverUrl with
  | none => simp [saveTargetUrl, hu, getStoredServerUrl_ne_empty]
  | some u =>
      by_cases h : jsTrim u = ""
      · simp [saveTargetUrl, hu, h, default_ne_empty]
      · simp [saveTargetUrl, hu, h]

/-- Resolving after storing a `saveSettings` target URL yields that URL. -/
theorem getStoredServerUrl_after_store (s : ClientState) (updates : SettingsUpdate) :
    getStoredServerUrl (storeServerUrl (saveTargetUrl s updates) s)
      = saveTargetUrl s updates := by
  unfold storeServerUrl getStoredServerUrl
  simp only [jsTrim_saveTargetUrl]
  rw [if_neg (saveTargetUrl_ne_empty s updates)]

/-- The merge chain `resp || update || cache || ''` of `saveSettings` computes
the fallback chain the spec describes. -/
theorem jsOrStr_eq_specKeyFallback (a b c : Option String) :
    jsOrStr a (jsOrStr b (jsOrStr c "")) = specKeyFallback a b c := by
  cases a <;> cases b <;> cases c <;>
    simp only [jsOrStr, specKeyFallback, nonEmptyOpt] <;>
    split_ifs <;> simp_all

/-- Zero-padding facts about the date components `getTodayPlan` formats:
for every `n` in the calendar ranges used (month numbers 1..12, day numbers
1..31) the padded string has exactly two characters and agrees with the
spec-side zero-pad formatter. -/
theorem pad2_spec : ∀ n, n < 32 → 1 ≤ n →
    (padStart2 (toString n)).length = 2 ∧ padStart2 (toString n) = specPad2 n := by
  decide

/-! ## Claim theorems -/

/-- C1 counterexample: the claim's second conjunct — that the merged value's
`serverUrl` is never equal to any `serverUrl` field appearing in the
backend's JSON response — fails on the concrete input where the backend
echoes the very URL stored locally: `loadSettings` succeeds against a body
whose `serverUrl` field is `"http://a"` while localStorage holds
`"http://a"`, and the returned `serverUrl` equals that backend field. -/
theorem serverUrl_backend_echo_cex :
    (loadSettings { storedUrl := some "http://a", cache := none }
        (.success { togetherApiKey := none, groqApiKey := none,
                    serverUrl := some "http://a" })).2.serverUrl = "http://a" ∧
    ({ togetherApiKey := none, groqApiKey := none,
       serverUrl := some "http://a" } : BackendSettingsBody).serverUrl
      = some "http://a" := by
  exact ⟨by decide, rfl⟩

/-- C1 (amended): for every successful `loadSettings` or `saveSettings`, the
cached (and returned) `serverUrl` equals the URL resolved from local storage
(for a save, the computed target URL: the trimmed new value or the default),
and the outcome is computed independently of any `serverUrl` field in the
backend's JSON response — replacing that field with any value changes
nothing; equality with the backend's field can only occur coincidentally.
Quantifying over an arbitrary pre-state covers every sequence of
operations. -/
theorem serverUrl_never_from_backend (s : ClientState) (body : BackendSettingsBody)
    (v : Option String) (upd : SettingsUpdate) (sb : BackendSettingsBody)
    (w : Option String) :
    ((loadSettings s (.success body)).2.serverUrl = getStoredServerUrl s) ∧
    ((loadSettings s (.success body)).1.cache = some (loadSettings s (.success body)).2) ∧
    (loadSettings s (.success { body with serverUrl := v })
      = loadSettings s (.success body)) ∧
    ((saveSettings s upd (.success { settings := some sb })).result.map
        (fun st => st.serverUrl) = some (saveTargetUrl s upd)) ∧
    ((saveSettings s upd (.success { settings := none })).result.map
        (fun st => st.serverUrl) = some (saveTargetUrl s upd)) ∧
    ((saveSettings s upd (.success { settings := some sb })).state.cache
      = (saveSettings s upd (.success { settings := some sb })).result) ∧
    (saveSettings s upd (.success { settings := some { sb with serverUrl := w } })
      = saveSettings s upd (.success { settings := some sb })) :=
  ⟨rfl, rfl, rfl, rfl, rfl, rfl, rfl⟩

/-- C2: every API client function maps every backend failure — non-success
HTTP status or thrown/network/parse error — to `null` (`none`), or to an
`ok := false` result for `captureContext`; in this embedding each function
is total, so no exception reaches the caller. -/
theorem apiClient_failure_returns_null (s : ClientState) (content dateStr date : String)
    (now : JsDate) (taskId : Nat) (completed : Bool)
    (errField : Option String) (errText : String) (β : Type) :
    ((captureContext s content (.badStatus errField)).ok = false) ∧
    ((captureContext s content .thrown).ok = false) ∧
    (getDailyPlan s dateStr (.badStatus errText) = none) ∧
    (getDailyPlan s dateStr .thrown = none) ∧
    (getTodayPlan s now (.badStatus errText) = none) ∧
    (getTodayPlan s now .thrown = none) ∧
    (generateDailyPlan s dateStr (.badStatus errText) = none) ∧
    (generateDailyPlan s dateStr .thrown = none) ∧
    (getAvailableDates s (.badStatus errText : FetchOutcome β String) = none) ∧
    (getAvailableDates s (.thrown : FetchOutcome β String) = none) ∧
    (generateMissingPlans s (.badStatus errText : FetchOutcome β String) = none) ∧
    (generateMissingPlans s (.thrown : FetchOutcome β String) = none) ∧
    (toggleTaskCompletion s taskId completed date (.badStatus errText) = none) ∧
    (toggleTaskCompletion s taskId completed date .thrown = none) :=
  ⟨rfl, rfl, rfl, rfl, rfl, rfl, rfl, rfl, rfl, rfl, rfl, rfl, rfl, rfl⟩

/-- C3: on a non-success HTTP status or a thrown error, `loadSettings`
returns (without raising — the embedding of the catch block is total) the
fallback Settings whose API keys are empty and whose `serverUrl` is the URL
resolved from local storage (or the default), and leaves the state as it
was. -/
theorem loadSettings_failure_returns_fallback (s : ClientState) (statusText : String) :
    loadSettings s (.badStatus statusText)
      = (s, { togetherApiKey := "", groqApiKey := "", serverUrl := getStoredServerUrl s }) ∧
    loadSettings s .thrown
      = (s, { togetherApiKey := "", groqApiKey := "", serverUrl := getStoredServerUrl s }) :=
  ⟨rfl, rfl⟩

/-- C4: when the update carries a `serverUrl`, `saveSettings` computes the
target URL as the trimmed new value (default when blank), writes exactly that
URL to local storage (the second trim inside `storeServerUrl` is the
identity), uses it as the base URL of the POST, sends a body holding only
the API-key fields present in the update and never a `serverUrl` field, and
a subsequent `resolveServerUrl` returns the persisted trimmed value. -/
theorem saveSettings_serverUrl_update_behavior (s : ClientState)
    (tk gk : Option String) (u : String) (resp : FetchOutcome SaveResponseBody String) :
    ((saveSettings s ⟨tk, gk, some u⟩ resp).state.storedUrl
      = some (saveTargetUrl s ⟨tk, gk, some u⟩)) ∧
    (saveTargetUrl s ⟨tk, gk, some u⟩
      = (if jsTrim u = "" then DEFAULT_SERVER_URL else jsTrim u)) ∧
    ((saveSettings s ⟨tk, gk, some u⟩ resp).request.url
      = saveTargetUrl s ⟨tk, gk, some u⟩ ++ "/api/settings") ∧
    ((saveSettings s ⟨tk, gk, some u⟩ resp).request.method = "POST") ∧
    ((saveSettings s ⟨tk, gk, some u⟩ resp).request.body
      = some (backendUpdates ⟨tk, gk, some u⟩)) ∧
    ((backendUpdates ⟨tk, gk, some u⟩).lookup "serverUrl" = none) ∧
    ((backendUpdates ⟨tk, gk, some u⟩).lookup "togetherApiKey" = tk.map JVal.str) ∧
    ((backendUpdates ⟨tk, gk, some u⟩).lookup "groqApiKey" = gk.map JVal.str) ∧
    (((backendUpdates ⟨tk, gk, some u⟩).map Prod.fst).all
      (fun k => k == "togetherApiKey" || k == "groqApiKey") = true) ∧
    (resolveServerUrl (saveSettings s ⟨tk, gk, some u⟩ resp).state
      = saveTargetUrl s ⟨tk, gk, some u⟩) := by
  refine ⟨?_, rfl, ?_, ?_, ?_, ?_, ?_, ?_, ?_, ?_⟩
  · cases resp <;>
      simp [saveSettings, storeServerUrl, jsTrim_saveTargetUrl]
  · cases resp <;> rfl
  · cases resp <;> rfl
  · cases resp <;> rfl
  · cases tk <;> cases gk <;> simp [backendUpdates, List.lookup]
  · cases tk <;> cases gk <;> simp [backendUpdates, List.lookup]
  · cases tk <;> cases gk <;> simp [backendUpdates, List.lookup]
  · cases tk <;> cases gk <;> simp [backendUpdates]
  · cases resp <;>
      simpa [saveSettings, resolveServerUrl] using
        getStoredServerUrl_after_store s ⟨tk, gk, some u⟩

/-- C5: on a non-success HTTP status or a thrown error, `saveSettings`
re-raises to its caller (modelled by `result = none`), for every update. -/
theorem saveSettings_failure_raises (s : ClientState) (upd : SettingsUpdate)
    (e : String) :
    (saveSettings s upd (.badStatus e)).result = none ∧
    (saveSettings s upd .thrown).result = none :=
  ⟨rfl, rfl⟩

/-- C6 counterexample: the GET and POST to `/api/settings` carry no
`ngrok-skip-browser-warning` header at all — `loadSettings` passes no headers
and `saveSettings` passes only `Content-Type` — refuting the claim that every
request of this layer carries it. -/
theorem settings_requests_lack_ngrok_header :
    (loadSettingsRequest { storedUrl := none, cache := none }).headers.lookup
      "ngrok-skip-browser-warning" = none ∧
    (saveSettingsRequest { storedUrl := none, cache := none }
        { togetherApiKey := none, groqApiKey := none, serverUrl := none }).headers.lookup
      "ngrok-skip-browser-warning" = none := by
  exact ⟨rfl, by decide⟩

/-- C6 (amended): every API client request (the seven functions of the API
helper module) carries the header `ngrok-skip-browser-warning: 69420`, but
the settings layer's own GET and POST to `/api/settings` do not: the GET
sends no headers and the POST sends only `Content-Type`. -/
theorem ngrok_header_api_client_only (s : ClientState) (content dateStr date : String)
    (now : JsDate) (taskId : Nat) (completed : Bool) (upd : SettingsUpdate) :
    (("ngrok-skip-browser-warning", "69420") ∈ (captureContextRequest s content).headers) ∧
    (("ngrok-skip-browser-warning", "69420") ∈ (getDailyPlanRequest s dateStr).headers) ∧
    (("ngrok-skip-browser-warning", "69420") ∈ (getTodayPlanRequest s now).headers) ∧
    (("ngrok-skip-browser-warning", "69420") ∈ (generateDailyPlanRequest s dateStr).headers) ∧
    (("ngrok-skip-browser-warning", "69420") ∈ (getAvailableDatesRequest s).headers) ∧
    (("ngrok-skip-browser-warning", "69420") ∈ (generateMissingPlansRequest s).headers) ∧
    (("ngrok-skip-browser-warning", "69420")
      ∈ (toggleTaskCompletionRequest s taskId completed date).headers) ∧
    ((loadSettingsRequest s).headers = []) ∧
    ((saveSettingsRequest s upd).headers = [("Content-Type", "application/json")]) :=
  ⟨List.Mem.tail _ (List.Mem.head _), List.Mem.tail _ (List.Mem.head _),
   List.Mem.tail _ (List.Mem.head _), List.Mem.tail _ (List.Mem.head _),
   List.Mem.tail _ (List.Mem.head _), List.Mem.tail _ (List.Mem.head _),
   List.Mem.tail _ (List.Mem.head _), rfl, rfl⟩

/-- C7: `getTodayPlan` delegates to `getDailyPlan` with today's date built
from the local-timezone components (`getFullYear`/`getMonth`/`getDate`, not
the UTC accessors), formatted `YYYY-MM-DD` with the month number
(`getMonth() + 1`) and day zero-padded to exactly two digits. -/
theorem getTodayPlan_local_padded_date (s : ClientState) (now : JsDate)
    (resp : FetchOutcome DailyPlanResponse String)
    (hm : now.month < 12) (hd1 : 1 ≤ now.date) (hd : now.date ≤ 31) :
    (getTodayPlan s now resp = getDailyPlan s (todayDateStr now) resp) ∧
    (getTodayPlanRequest s now = getDailyPlanRequest s (todayDateStr now)) ∧
    (todayDateStr now = toString now.fullYear ++ "-" ++ specPad2 (now.month + 1)
      ++ "-" ++ specPad2 now.date) ∧
    ((padStart2 (toString (now.month + 1))).length = 2) ∧
    ((padStart2 (toString now.date)).length = 2) := by
  obtain ⟨hmlen, hmeq⟩ := pad2_spec (now.month + 1) (by omega) (by omega)
  obtain ⟨hdlen, hdeq⟩ := pad2_spec now.date (by omega) hd1
  refine ⟨rfl, rfl, ?_, hmlen, hdlen⟩
  rw [todayDateStr, hmeq, hdeq]

/-- C7 witness: the theorem applied at October 11, 2026 (month index 9). -/
theorem getTodayPlan_local_padded_date_witness :
    todayDateStr ⟨2026, 9, 11⟩
      = toString (2026 : Nat) ++ "-" ++ specPad2 10 ++ "-" ++ specPad2 11 :=
  (getTodayPlan_local_padded_date { storedUrl := none, cache := none }
    ⟨2026, 9, 11⟩ .thrown (by decide) (by decide) (by decide)).2.2.1

/-- C8: when the update carries a `serverUrl` and the POST then fails, the
error is re-raised, but the new target URL was stored before the fetch, so
the failed call leaves it persisted — `resolveServerUrl` afterwards returns
the new URL — while the settings cache is exactly what it was before the
call. -/
theorem saveSettings_failure_keeps_new_url (s : ClientState) (tk gk : Option String)
    (u : String) (e : String) :
    ((saveSettings s ⟨tk, gk, some u⟩ (.badStatus e)).result = none) ∧
    ((saveSettings s ⟨tk, gk, some u⟩ .thrown).result = none) ∧
    ((saveSettings s ⟨tk, gk, some u⟩ (.badStatus e)).state.storedUrl
      = some (saveTargetUrl s ⟨tk, gk, some u⟩)) ∧
    ((saveSettings s ⟨tk, gk, some u⟩ .thrown).state.storedUrl
      = some (saveTargetUrl s ⟨tk, gk, some u⟩)) ∧
    (resolveServerUrl (saveSettings s ⟨tk, gk, some u⟩ (.badStatus e)).state
      = saveTargetUrl s ⟨tk, gk, some u⟩) ∧
    (resolveServerUrl (saveSettings s ⟨tk, gk, some u⟩ .thrown).state
      = saveTargetUrl s ⟨tk, gk, some u⟩) ∧
    ((saveSettings s ⟨tk, gk, some u⟩ (.badStatus e)).state.cache = s.cache) ∧
    ((saveSettings s ⟨tk, gk, some u⟩ .thrown).state.cache = s.cache) := by
  refine ⟨rfl, rfl, ?_, ?_, ?_, ?_, rfl, rfl⟩
  · simp [saveSettings, storeServerUrl, jsTrim_saveTargetUrl]
  · simp [saveSettings, storeServerUrl, jsTrim_saveTargetUrl]
  · simpa [saveSettings, resolveServerUrl] using
      getStoredServerUrl_after_store s ⟨tk, gk, some u⟩
  · simpa [saveSettings, resolveServerUrl] using
      getStoredServerUrl_after_store s ⟨tk, gk, some u⟩

/-- C9: a failed `loadSettings` (non-success status or thrown error) leaves
the whole state — in particular the settings cache — exactly as before the
call: the fallback it returns is not written to the cache, so peeking the
cache afterwards observes the pre-call value (possibly `none`). -/
theorem loadSettings_failure_preserves_cache (s : ClientState) (e : String) :
    ((loadSettings s (.badStatus e)).1 = s) ∧
    ((loadSettings s .thrown).1 = s) ∧
    (getCachedSettings (loadSettings s (.badStatus e)).1 = getCachedSettings s) ∧
    (getCachedSettings (loadSettings s .thrown).1 = getCachedSettings s) :=
  ⟨rfl, rfl, rfl, rfl⟩

/-- C10: on a successful save, each API-key field of the cached (and
returned) Settings is the spec's fallback chain — backend response value if
present and non-empty, else the submitted update value if present and
non-empty, else the previously cached value if present and non-empty, else
the empty string — so a response omitting a field does not erase a
previously known key; and the cache receives exactly the returned value. -/
theorem saveSettings_merge_fallback_chain (s : ClientState) (upd : SettingsUpdate)
    (body : SaveResponseBody) :
    ((saveSettings s upd (.success body)).result = some
      { togetherApiKey := specKeyFallback (body.settings.bind (fun b => b.togetherApiKey))
          upd.togetherApiKey (s.cache.map (fun c => c.togetherApiKey))
        groqApiKey := specKeyFallback (body.settings.bind (fun b => b.groqApiKey))
          upd.groqApiKey (s.cache.map (fun c => c.groqApiKey))
        serverUrl := saveTargetUrl s upd }) ∧
    ((saveSettings s upd (.success body)).state.cache
      = (saveSettings s upd (.success body)).result) := by
  refine ⟨?_, rfl⟩
  simp only [saveSettings, jsOrStr_eq_specKeyFallback]

end ContextOS
